import Mathlib

/-!
Verification of the Slack bot event classification and dispatch engine
(`src/bot/slack/slack.go`). Go strings are modelled as `List Char`; the
stateful handler is modelled as a pure function from an event and an
environment (the transport lookups and the external vote parser) to the
multiset of effects it performs: approval-queue sends, command-queue sends
and replies.
-/

namespace KeelSlack

/-- Go strings, modelled as lists of characters. -/
abbrev Str := List Char

/-- Model of Go `strings.ToLower` (ASCII case mapping, per-character). -/
def goToLower (s : Str) : Str := s.map Char.toLower

/-- Model of Go `strings.Trim s cutset`: remove leading and trailing
characters that appear in `cutset`. -/
def goTrim (s cutset : Str) : Str :=
  ((s.dropWhile (fun c => cutset.contains c)).reverse.dropWhile
    (fun c => cutset.contains c)).reverse

/-- Model of Go `strings.TrimPrefix s pre`: drop `pre` from the front of `s`
when it is a prefix, otherwise return `s` unchanged. -/
def goTrimPrefix (s pre : Str) : Str :=
  if pre.isPrefixOf s then s.drop pre.length else s

/-- Replace the first occurrence of `pat` (nonempty) in `s` by `rep`;
the scan tries every position from the left. -/
def replaceFirst (s pat rep : Str) : Str :=
  match s with
  | [] => []
  | c :: rest =>
    if pat.isPrefixOf (c :: rest) then rep ++ (c :: rest).drop pat.length
    else c :: replaceFirst rest pat rep

/-- Model of Go `strings.Replace s old new 1`: an empty `old` matches at the
beginning of the string, otherwise the first occurrence of `old` is
replaced. -/
def goReplace1 (s old rep : Str) : Str :=
  if old = [] then rep ++ s else replaceFirst s old rep

/-- Does `pat` occur as a contiguous substring of `s`? -/
def occursIn (pat : Str) : Str → Bool
  | [] => pat.isPrefixOf []
  | c :: rest => pat.isPrefixOf (c :: rest) || occursIn pat rest

/-- Model of Go `len` on a string: the number of UTF-8 bytes. -/
def goLen (s : Str) : Nat := (s.map Char.utf8Size).sum

/-- The bot's configuration and resolved identity (fields of `Bot` used by
the message-handling path). -/
structure Bot where
  id : Str
  name : Str
  msgPrefix : Str
  approvalsChannel : Str

/-- One entry of the workspace user listing returned by `GetUsers`. -/
structure SlackUser where
  id : Str
  name : Str
  isBot : Bool
deriving DecidableEq

/-- A channel record as returned by the channel / conversation lookups:
only the name is consulted. -/
structure ChannelInfo where
  name : Str
deriving DecidableEq

/-- An inbound `slack.MessageEvent` (the fields `handleMessage` reads). -/
structure MessageEvent where
  text : Str
  user : Str
  channel : Str
  botID : Str
  subType : Str

/-- Modelled from the spec: the vote decision of an `ApprovalVote`
(`bot.ApprovalResponse` lives in the `bot` package, outside `src/`). -/
inductive Decision where
  | approve
  | reject
  | unknown
deriving DecidableEq

/-- Modelled from the spec: the `ApprovalVote` record produced by the
external vote parser `bot.IsApproval` — voterID, decision, subject
(the `bot` package is outside `src/`). -/
structure ApprovalResponse where
  voterID : Str
  decision : Decision
  subject : Str
deriving DecidableEq

/-- Modelled from the spec: the `bot.BotMessage` record the handler enqueues
on the command queue; the source constructs it with fields Message, User,
Channel, Name (the `bot` package is outside `src/`). -/
structure BotMessage where
  message : Str
  user : Str
  channel : Str
  name : Str
deriving DecidableEq

/-- The transport lookups and the external vote parser that
`handleMessage` calls: `GetChannelInfo`, `GetConversationInfo` (second
argument is the cache-bypass flag) and `bot.IsApproval` (returning
`none` when the text is not vote-shaped). -/
structure SlackEnv where
  getChannelInfo : Str → Option ChannelInfo
  getConversationInfo : Str → Bool → Option ChannelInfo
  isApproval : Str → Str → Option ApprovalResponse

/-- The effects of one `handleMessage` call: values sent on the approvals
channel, values sent on the command (bot-messages) channel, and `Respond`
calls as (text, channelID) pairs. -/
structure HandlerOutput where
  approvals : List ApprovalResponse
  messages : List BotMessage
  replies : List (Str × Str)
deriving DecidableEq

/-- No effect at all: the handler dropped the event. -/
def HandlerOutput.empty : HandlerOutput := ⟨[], [], []⟩

/-- The loop body of the user scan in `Start`: on a name match the bot flag
is consulted and the accumulated id overwritten; otherwise the accumulator
is kept. -/
def scanStep (name : Str) (acc : Str) (u : SlackUser) : Str :=
  if u.name = name then (if u.isBot then u.id else acc) else acc

/-- The user scan of `Start` (lines 90–101): `b.id` starts empty and is
assigned on every user whose name equals the configured name and whose
record is flagged as a bot. -/
def scanUsers (name : Str) (users : List SlackUser) : Str :=
  users.foldl (scanStep name) []

/-- The startup error text of `Start` when no bot id was found. -/
def noBotFoundMsg (name : Str) : Str :=
  "could not find bot in the list of names, check if the bot is called \"".data
    ++ name ++ "\" ".data

/-- The identity-resolution phase of `Start` (lines 90–106), given the user
snapshot returned by `GetUsers`: on success it yields the resolved id and
the computed mention prefix `strings.ToLower("<@" + id + ">")`; on failure
(`b.id` still empty) it returns the error and the router is not started. -/
def Start (name : Str) (users : List SlackUser) : Except Str (Str × Str) :=
  let id := scanUsers name users
  if id = [] then Except.error (noBotFoundMsg name)
  else Except.ok (id, goToLower ("<@".data ++ id ++ ">".data))

/-- Model of `isApprovalsChannel` (lines 177–201): public channel lookup
first; on failure a private/direct conversation lookup with the cache
bypass flag set; a name equality decides, and two failures yield false. -/
def Bot.isApprovalsChannel (b : Bot) (env : SlackEnv) (event : MessageEvent) : Bool :=
  match env.getChannelInfo event.channel with
  | none =>
    match env.getConversationInfo event.channel true with
    | none => false
    | some conv => conv.name == b.approvalsChannel
  | some channel => channel.name == b.approvalsChannel

/-- Model of `isBotMessage` (lines 269–284): the trimmed lower-cased text
starts with the mention prefix or the plain bot name, or the channel id
starts with the direct-message marker letter D. -/
def Bot.isBotMessage (b : Bot) (event : MessageEvent) (eventText : Str) : Bool :=
  ([b.msgPrefix, b.name].any fun p => p.isPrefixOf eventText)
    || ("D".data).isPrefixOf event.channel

/-- Model of `trimBot` (lines 286–292): `strings.Replace(msg,
strings.ToLower(b.msgPrefix), "", 1)`, then `strings.TrimPrefix(msg,
b.name)`, then `strings.Trim(msg, " :\n")`. -/
def Bot.trimBot (b : Bot) (msg : Str) : Str :=
  let m1 := goReplace1 msg (goToLower b.msgPrefix) []
  let m2 := goTrimPrefix m1 b.name
  goTrim m2 (" :\n".data)

/-- The redirect notice `fmt.Sprintf("please use approvals channel '%s'",
b.approvalsChannel)` of line 232. -/
def redirectMessage (approvalsChannel : Str) : Str :=
  "please use approvals channel '".data ++ approvalsChannel ++ "'".data

/-- Model of `handleMessage` (lines 203–242) as the effects of one call. -/
def Bot.handleMessage (b : Bot) (env : SlackEnv) (event : MessageEvent) : HandlerOutput :=
  if event.botID ≠ [] ∨ event.user = [] ∨ event.subType = "bot_message".data then
    HandlerOutput.empty
  else
    let eventText := goTrim (goToLower event.text) " \n\r".data
    if !(b.isBotMessage event eventText) then HandlerOutput.empty
    else
      let stripped := b.trimBot eventText
      match env.isApproval event.user stripped with
      | some approval =>
        if b.isApprovalsChannel env event then ⟨[approval], [], []⟩
        else ⟨[], [], [(redirectMessage b.approvalsChannel, event.channel)]⟩
      | none => ⟨[], [⟨stripped, event.user, event.channel, "slack".data⟩], []⟩

/-- Model of `formatAsSnippet` (lines 294–296). -/
def formatAsSnippet (response : Str) : Str :=
  "```".data ++ response ++ "```".data

/-- The outbound action `Respond` (lines 244–267) performs. -/
inductive RespondAction where
  | inline (text channel : Str)
  | upload (filename content filetype : Str) (channels : List Str)
deriving DecidableEq

/-- Model of `Respond` (lines 244–267): short texts are sent inline as a
snippet over the RTM connection; texts of 3000 bytes or more are uploaded
as a text file named "keel response" into the channel. -/
def Respond (text channel : Str) : RespondAction :=
  if goLen text < 3000 then RespondAction.inline (formatAsSnippet text) channel
  else RespondAction.upload ("keel response".data) text ("text".data) [channel]

/-- The strip-addressing step as the specification words it: remove one
occurrence of the mention prefix from the start if present, else (only
then) one occurrence of the plain name from the start if present, then
trim separator characters from both ends. Stated for comparison with
`Bot.trimBot`, the model of the source. -/
def specTrimBot (b : Bot) (msg : Str) : Str :=
  let m1 :=
    if (goToLower b.msgPrefix).isPrefixOf msg then
      msg.drop (goToLower b.msgPrefix).length
    else goTrimPrefix msg b.name
  goTrim m1 (" :\n".data)

/-- Concrete bot configuration used by concrete instances: id u123, name
keel, mention prefix lower-cased, approvals channel general. -/
def cBot : Bot := ⟨"u123".data, "keel".data, "<@u123>".data, "general".data⟩

/-- An environment whose public channel lookup always resolves to the
channel named general and whose vote parser accepts every text. -/
def wEnvApprove : SlackEnv :=
  ⟨fun _ => some ⟨"general".data⟩, fun _ _ => none,
   fun u t => some ⟨u, Decision.approve, t⟩⟩

/-- An environment whose lookups all fail and whose vote parser rejects
every text. -/
def wEnvNoVote : SlackEnv := ⟨fun _ => none, fun _ _ => none, fun _ _ => none⟩

/-- A human-authored mention-addressed vote message in channel general. -/
def wEventVote : MessageEvent :=
  ⟨"<@u123> approve payment-1".data, "u999".data, "general".data, [], []⟩

/-- A human-authored plain-name command message in a direct-message
channel. -/
def wEventCommand : MessageEvent :=
  ⟨"keel status".data, "u999".data, "D12".data, [], []⟩

/-- A human-authored message addressed to nobody in an ordinary channel. -/
def wEventPlain : MessageEvent :=
  ⟨"hello there".data, "u999".data, "c1".data, [], []⟩

/-- A bot-authored message (nonempty botID). -/
def wEventBot : MessageEvent := ⟨"hi".data, "u999".data, "c1".data, "b1".data, []⟩

/-- A bot whose configured display name contains an upper-case letter. -/
def wBotUpper : Bot := ⟨"u123".data, "Keel".data, "<@u123>".data, "general".data⟩

/-- ASCII lower-casing never produces an upper-case letter. -/
theorem not_isUpper_toLower (c : Char) : (Char.toLower c).isUpper = false := by
  unfold Char.toLower
  simp only []
  by_cases h : c.toNat ≥ 65 ∧ c.toNat ≤ 90
  · rw [if_pos h]
    obtain ⟨h1, h2⟩ := h
    generalize Char.toNat c = n at h1 h2
    interval_cases n <;> decide
  · rw [if_neg h]
    rw [Char.isUpper]
    by_contra hcon
    rw [Bool.not_eq_false, Bool.and_eq_true] at hcon
    obtain ⟨ha, hb⟩ := hcon
    apply h
    have ha' : (65 : UInt32) ≤ c.val := of_decide_eq_true ha
    have hb' : c.val ≤ (90 : UInt32) := of_decide_eq_true hb
    constructor
    · exact UInt32.le_toNat_of_le (by decide) ha'
    · exact UInt32.toNat_le_of_le (by decide) hb'

/-- Trimming only drops characters. -/
theorem mem_of_mem_goTrim {c : Char} {s cutset : Str} (h : c ∈ goTrim s cutset) : c ∈ s := by
  unfold goTrim at h
  rw [List.mem_reverse] at h
  have h2 := List.dropWhile_subset (fun c => cutset.contains c) h
  rw [List.mem_reverse] at h2
  exact List.dropWhile_subset (fun c => cutset.contains c) h2

/-- Every character of a lower-cased string is not upper-case. -/
theorem not_isUpper_of_mem_goToLower {c : Char} {s : Str} (h : c ∈ goToLower s) :
    c.isUpper = false := by
  unfold goToLower at h
  obtain ⟨d, _, hd⟩ := List.mem_map.mp h
  exact hd ▸ not_isUpper_toLower d

/-- Characters of a prefix are characters of the string. -/
theorem mem_of_isPrefixOf {c : Char} {pat s : Str} (hp : pat.isPrefixOf s = true)
    (hc : c ∈ pat) : c ∈ s :=
  (List.isPrefixOf_iff_prefix.mp hp).subset hc

/-- The replacement scan replaces exactly the first occurrence: on a text
decomposed as `x ++ pat ++ y` where no occurrence of `pat` starts inside
`x`, the scan yields `x ++ rep ++ y`. -/
theorem replaceFirst_first_occurrence (pat rep : Str) (hp : pat ≠ []) :
    ∀ x y : Str, (∀ i, i < x.length → pat.isPrefixOf ((x ++ pat ++ y).drop i) = false) →
      replaceFirst (x ++ pat ++ y) pat rep = x ++ rep ++ y := by
  intro x
  induction x with
  | nil =>
    intro y _
    obtain ⟨p, pt, rfl⟩ : ∃ p pt, pat = p :: pt := by
      cases pat with
      | nil => exact absurd rfl hp
      | cons p pt => exact ⟨p, pt, rfl⟩
    simp only [List.nil_append, List.cons_append, replaceFirst]
    rw [if_pos]
    · simp [List.drop_left]
    · rw [List.isPrefixOf_iff_prefix]
      exact ⟨y, rfl⟩
  | cons c x' ih =>
    intro y hfirst
    simp only [List.cons_append] at hfirst ⊢
    have h0 := hfirst 0 (Nat.zero_lt_succ _)
    rw [List.drop_zero] at h0
    simp only [List.append_assoc] at h0
    simp only [replaceFirst]
    rw [if_neg (by simp only [List.append_assoc]; simp [h0])]
    congr 1
    apply ih
    intro i hi
    have hstep := hfirst (i + 1) (Nat.succ_lt_succ hi)
    rwa [List.drop_succ_cons] at hstep

/-- An occurrence in a suffix is an occurrence in the whole string. -/
theorem occursIn_append_left (pat y : Str) (h : occursIn pat y = true) (x : Str) :
    occursIn pat (x ++ y) = true := by
  induction x with
  | nil => simpa using h
  | cons c x' ih =>
    rw [List.cons_append, occursIn]
    rw [ih]
    simp

/-- The user-scan fold keeps the id of the last matching bot user,
whatever the accumulator started as. -/
theorem foldl_scanStep_eq (name : Str) :
    ∀ (users : List SlackUser) (acc : Str),
      users.foldl (scanStep name) acc =
        (((users.reverse.find? fun u => u.name == name && u.isBot).map SlackUser.id).getD acc) := by
  intro users
  induction users with
  | nil => intro acc; simp
  | cons u us ih =>
    intro acc
    rw [List.foldl_cons, ih (scanStep name acc u)]
    rw [List.reverse_cons, List.find?_append]
    cases hfind : us.reverse.find? fun u => u.name == name && u.isBot with
    | some v => simp [hfind, Option.or]
    | none =>
      simp only [hfind, Option.or]
      by_cases h1 : u.name = name
      · by_cases h2 : u.isBot = true
        · simp [scanStep, h1, h2]
        · simp [scanStep, h1, h2]
      · simp [scanStep, h1]

/-- The scan of `Start` resolves to the id of the last user in iteration
order whose name matches and who is flagged as a bot. -/
theorem scanUsers_eq_last_match (name : Str) (users : List SlackUser) :
    scanUsers name users =
      (((users.reverse.find? fun u => u.name == name && u.isBot).map SlackUser.id).getD []) :=
  foldl_scanStep_eq name users []

/-- Shared helper: `trimBot` on a text decomposed around the first
occurrence of the lower-cased mention prefix removes that occurrence, then
applies the plain-name prefix trim and the separator trim. -/
theorem trimBot_replaces_first (b : Bot) (x y : Str)
    (hp : goToLower b.msgPrefix ≠ [])
    (hfirst : ∀ i, i < x.length →
      (goToLower b.msgPrefix).isPrefixOf ((x ++ goToLower b.msgPrefix ++ y).drop i) = false) :
    b.trimBot (x ++ goToLower b.msgPrefix ++ y) =
      goTrim (goTrimPrefix (x ++ y) b.name) (" :\n".data) := by
  unfold Bot.trimBot
  rw [goReplace1, if_neg hp, replaceFirst_first_occurrence _ _ hp x y hfirst]
  simp

/-- C3: an event with a nonempty botID, an empty sender, or the
bot_message subtype is dropped: nothing is enqueued on either queue and no
reply is sent. -/
theorem C3_noise_filter_drops (b : Bot) (env : SlackEnv) (event : MessageEvent)
    (h : event.botID ≠ [] ∨ event.user = [] ∨ event.subType = "bot_message".data) :
    b.handleMessage env event = HandlerOutput.empty := by
  unfold Bot.handleMessage
  rw [if_pos h]

/-- C3 witness: a bot-authored event is dropped. -/
theorem C3_witness : cBot.handleMessage wEnvNoVote wEventBot = HandlerOutput.empty :=
  C3_noise_filter_drops cBot wEnvNoVote wEventBot (by decide)

/-- C4: an event that passes the noise filter but whose normalized text
starts with neither the mention prefix nor the plain configured name, and
whose channel id does not start with the direct-message marker D, is
dropped silently: nothing is enqueued and no reply is sent. -/
theorem C4_unaddressed_drops (b : Bot) (env : SlackEnv) (event : MessageEvent)
    (hnoise : ¬(event.botID ≠ [] ∨ event.user = [] ∨ event.subType = "bot_message".data))
    (h1 : b.msgPrefix.isPrefixOf (goTrim (goToLower event.text) " \n\r".data) = false)
    (h2 : b.name.isPrefixOf (goTrim (goToLower event.text) " \n\r".data) = false)
    (h3 : ("D".data).isPrefixOf event.channel = false) :
    b.handleMessage env event = HandlerOutput.empty := by
  have hbm : b.isBotMessage event (goTrim (goToLower event.text) " \n\r".data) = false := by
    unfold Bot.isBotMessage
    simp [h1, h2, h3]
  unfold Bot.handleMessage
  rw [if_neg hnoise]
  simp only [hbm, Bool.not_false, if_true]

/-- C4 witness: an unaddressed event in an ordinary channel is dropped. -/
theorem C4_witness : cBot.handleMessage wEnvNoVote wEventPlain = HandlerOutput.empty :=
  C4_unaddressed_drops cBot wEnvNoVote wEventPlain (by decide) (by decide) (by decide)
    (by decide)

/-- C1: an event that passes the noise and addressed-to-bot filters and
whose stripped text the vote parser recognises is routed on the approvals
channel test: inside the approvals channel exactly the vote is enqueued
and nothing else happens; outside it nothing is enqueued and exactly one
reply goes back to the event's channel, its text containing the approvals
channel name. -/
theorem C1_vote_routing (b : Bot) (env : SlackEnv) (event : MessageEvent) (v : ApprovalResponse)
    (hnoise : ¬(event.botID ≠ [] ∨ event.user = [] ∨ event.subType = "bot_message".data))
    (haddr : b.isBotMessage event (goTrim (goToLower event.text) " \n\r".data) = true)
    (hvote : env.isApproval event.user
      (b.trimBot (goTrim (goToLower event.text) " \n\r".data)) = some v) :
    (b.isApprovalsChannel env event = true →
      b.handleMessage env event = ⟨[v], [], []⟩)
    ∧ (b.isApprovalsChannel env event = false →
      b.handleMessage env event =
        ⟨[], [], [(redirectMessage b.approvalsChannel, event.channel)]⟩
      ∧ ∃ pre post, redirectMessage b.approvalsChannel =
          pre ++ b.approvalsChannel ++ post) := by
  constructor
  · intro hch
    unfold Bot.handleMessage
    rw [if_neg hnoise]
    simp only [haddr, hvote, hch, Bool.not_true, if_false, if_true]
    simp
  · intro hch
    refine ⟨?_, "please use approvals channel '".data, "'".data, rfl⟩
    unfold Bot.handleMessage
    rw [if_neg hnoise]
    simp only [haddr, hvote, hch, Bool.not_true, if_false]
    simp

/-- C1 witness: a recognised vote in the approvals channel enqueues
exactly that vote. -/
theorem C1_witness :
    cBot.handleMessage wEnvApprove wEventVote =
      ⟨[⟨"u999".data, Decision.approve, "approve payment-1".data⟩], [], []⟩ :=
  (C1_vote_routing cBot wEnvApprove wEventVote
      ⟨"u999".data, Decision.approve, "approve payment-1".data⟩
      (by decide) (by decide) (by decide)).1 (by decide)

/-- C2: an event that passes the noise and addressed-to-bot filters and
whose stripped text the vote parser does not recognise enqueues exactly
one BotMessage carrying the stripped text, the sender, the channel and the
transport tag slack, and nothing else happens. -/
theorem C2_command_routing (b : Bot) (env : SlackEnv) (event : MessageEvent)
    (hnoise : ¬(event.botID ≠ [] ∨ event.user = [] ∨ event.subType = "bot_message".data))
    (haddr : b.isBotMessage event (goTrim (goToLower event.text) " \n\r".data) = true)
    (hvote : env.isApproval event.user
      (b.trimBot (goTrim (goToLower event.text) " \n\r".data)) = none) :
    b.handleMessage env event =
      ⟨[], [⟨b.trimBot (goTrim (goToLower event.text) " \n\r".data),
        event.user, event.channel, "slack".data⟩], []⟩ := by
  unfold Bot.handleMessage
  rw [if_neg hnoise]
  simp only [haddr, hvote, Bool.not_true, if_false]
  simp

/-- C2 witness: a non-vote command in a direct-message channel enqueues
exactly one BotMessage tagged slack. -/
theorem C2_witness :
    cBot.handleMessage wEnvNoVote wEventCommand =
      ⟨[], [⟨"status".data, "u999".data, "D12".data, "slack".data⟩], []⟩ :=
  C2_command_routing cBot wEnvNoVote wEventCommand (by decide) (by decide) (by decide)


/-- C5 counterexample: on the normalized text keel <@u123> hi — which does
not begin with the mention prefix — the code removes the interior
occurrence of the mention prefix (and the leading plain name), yielding
hi, while the strip step as specified yields <@u123> hi. -/
theorem C5_counterexample :
    (goToLower cBot.msgPrefix).isPrefixOf ("keel <@u123> hi".data) = false
    ∧ cBot.trimBot ("keel <@u123> hi".data) = "hi".data
    ∧ specTrimBot cBot ("keel <@u123> hi".data) = "<@u123> hi".data
    ∧ cBot.trimBot ("keel <@u123> hi".data) ≠ specTrimBot cBot ("keel <@u123> hi".data) := by
  decide

/-- C5 (amended): the strip-addressing step removes exactly one occurrence
of the mention prefix — the first occurrence anywhere in the text, not
only at the start — if present; then, regardless, it removes one
occurrence of the plain configured name from the start if present, and
trims spaces, colons and newlines from both ends. -/
theorem C5_amended_strip (b : Bot) (x y : Str)
    (hp : goToLower b.msgPrefix ≠ [])
    (hfirst : ∀ i, i < x.length →
      (goToLower b.msgPrefix).isPrefixOf ((x ++ goToLower b.msgPrefix ++ y).drop i) = false) :
    b.trimBot (x ++ goToLower b.msgPrefix ++ y) =
      goTrim (goTrimPrefix (x ++ y) b.name) (" :\n".data) :=
  trimBot_replaces_first b x y hp hfirst

/-- C5 witness: stripping keel <@u123> hi removes the interior mention
prefix, then the leading plain name, then the separators. -/
theorem C5_amended_witness :
    cBot.trimBot ("keel ".data ++ goToLower cBot.msgPrefix ++ " hi".data) =
      goTrim (goTrimPrefix ("keel ".data ++ " hi".data) cBot.name) (" :\n".data) :=
  C5_amended_strip cBot ("keel ".data) (" hi".data) (by decide) (by decide)

/-- C8 counterexample: the text <@u123>keel <@u123> hi contains the
mention prefix twice; the code strips the first occurrence and then also
the plain name keel, so the remainder is not unchanged up to the final
trim. -/
theorem C8_counterexample :
    occursIn (goToLower cBot.msgPrefix) ("<@u123>keel <@u123> hi".data) = true
    ∧ occursIn (goToLower cBot.msgPrefix) ("keel <@u123> hi".data) = true
    ∧ cBot.trimBot ("<@u123>keel <@u123> hi".data) = "<@u123> hi".data
    ∧ cBot.trimBot ("<@u123>keel <@u123> hi".data) ≠
        goTrim ("keel <@u123> hi".data) (" :\n".data) := by
  decide

/-- C8 (amended): on a text containing the mention prefix twice, exactly
the first occurrence is removed (the later occurrence survives the
replacement, witnessed before the name and separator trims); the result is
the remainder with one leading occurrence of the plain configured name
removed if present and separator characters trimmed. -/
theorem C8_amended_single_removal (b : Bot) (x y : Str)
    (hp : goToLower b.msgPrefix ≠ [])
    (hfirst : ∀ i, i < x.length →
      (goToLower b.msgPrefix).isPrefixOf ((x ++ goToLower b.msgPrefix ++ y).drop i) = false)
    (hagain : occursIn (goToLower b.msgPrefix) y = true) :
    b.trimBot (x ++ goToLower b.msgPrefix ++ y) =
      goTrim (goTrimPrefix (x ++ y) b.name) (" :\n".data)
    ∧ occursIn (goToLower b.msgPrefix) (x ++ y) = true :=
  ⟨trimBot_replaces_first b x y hp hfirst, occursIn_append_left _ y hagain x⟩

/-- C8 witness: the double-mention text <@u123>keel <@u123> hi. -/
theorem C8_amended_witness :
    cBot.trimBot ([] ++ goToLower cBot.msgPrefix ++ "keel <@u123> hi".data) =
      goTrim (goTrimPrefix ([] ++ "keel <@u123> hi".data) cBot.name) (" :\n".data)
    ∧ occursIn (goToLower cBot.msgPrefix) ([] ++ "keel <@u123> hi".data) = true :=
  C8_amended_single_removal cBot [] ("keel <@u123> hi".data) (by decide) (by decide)
    (by decide)

/-- C6 counterexample: with two bot-flagged users both named keel, the scan
resolves to the id of the second (last) one, not the first. -/
theorem C6_counterexample :
    scanUsers ("keel".data)
        [⟨"u1".data, "keel".data, true⟩, ⟨"u2".data, "keel".data, true⟩] = "u2".data
    ∧ ("u2".data : Str) ≠ "u1".data := by
  decide

/-- C6 (amended): identity resolution scans the user snapshot for users
whose name equals the configured name case-sensitively and who are flagged
as bots; each later match overwrites the earlier, so the last one in
iteration order is picked; when no match exists, Start fails with the
could-not-find-bot error and the router is not started. -/
theorem C6_amended_resolution (name : Str) (users : List SlackUser) :
    scanUsers name users =
      (((users.reverse.find? fun u => u.name == name && u.isBot).map SlackUser.id).getD [])
    ∧ ((∀ u ∈ users, ¬(u.name = name ∧ u.isBot = true)) →
        Start name users = Except.error (noBotFoundMsg name)) := by
  refine ⟨scanUsers_eq_last_match name users, ?_⟩
  intro hnone
  have hfind : (users.reverse.find? fun u => u.name == name && u.isBot) = none := by
    rw [List.find?_eq_none]
    intro u hu
    have hu' := hnone u (List.mem_reverse.mp hu)
    simp only [Bool.and_eq_true, beq_iff_eq]
    exact fun hcon => hu' ⟨hcon.1, hcon.2⟩
  have hscan : scanUsers name users = [] := by
    rw [scanUsers_eq_last_match, hfind]
    rfl
  unfold Start
  rw [hscan]
  simp

/-- C6 witness: a snapshot with no bot-flagged user of the configured name
makes Start fail with the could-not-find-bot error. -/
theorem C6_amended_witness :
    Start ("keel".data) [⟨"u1".data, "keel".data, false⟩, ⟨"u2".data, "other".data, true⟩] =
      Except.error (noBotFoundMsg ("keel".data)) :=
  (C6_amended_resolution ("keel".data)
      [⟨"u1".data, "keel".data, false⟩, ⟨"u2".data, "other".data, true⟩]).2 (by decide)

/-- C7: the channel classifier resolves the channel in the public
namespace first and compares the name; on failure it falls back to the
private/direct lookup with the cache-bypass flag set and compares that
name; when both lookups fail it returns false. -/
theorem C7_channel_classifier (b : Bot) (env : SlackEnv) (event : MessageEvent) :
    (∀ c, env.getChannelInfo event.channel = some c →
      b.isApprovalsChannel env event = (c.name == b.approvalsChannel))
    ∧ (env.getChannelInfo event.channel = none →
      ∀ c, env.getConversationInfo event.channel true = some c →
        b.isApprovalsChannel env event = (c.name == b.approvalsChannel))
    ∧ (env.getChannelInfo event.channel = none →
      env.getConversationInfo event.channel true = none →
        b.isApprovalsChannel env event = false) := by
  refine ⟨?_, ?_, ?_⟩
  · intro c hc
    unfold Bot.isApprovalsChannel
    rw [hc]
  · intro hnone c hc
    unfold Bot.isApprovalsChannel
    rw [hnone, hc]
  · intro hnone hnone2
    unfold Bot.isApprovalsChannel
    rw [hnone, hnone2]

/-- C7 witness: when both lookups fail the channel is not treated as the
approvals channel. -/
theorem C7_witness : cBot.isApprovalsChannel wEnvNoVote wEventVote = false :=
  (C7_channel_classifier cBot wEnvNoVote wEventVote).2.2 rfl rfl

/-- C9: a text strictly shorter than 3000 bytes is sent as an inline reply
wrapped in a verbatim snippet block; a longer text is uploaded as a text
artifact named keel response scoped to the channel; the two paths exclude
each other. -/
theorem C9_respond_paths (text channel : Str) :
    (goLen text < 3000 →
      Respond text channel = RespondAction.inline (formatAsSnippet text) channel)
    ∧ (3000 ≤ goLen text →
      Respond text channel =
        RespondAction.upload ("keel response".data) text ("text".data) [channel])
    ∧ (Respond text channel = RespondAction.inline (formatAsSnippet text) channel ↔
      ¬(Respond text channel =
        RespondAction.upload ("keel response".data) text ("text".data) [channel])) := by
  by_cases h : goLen text < 3000
  · refine ⟨fun _ => ?_, fun hge => absurd hge (Nat.not_le.mpr h), ?_⟩
    · unfold Respond
      rw [if_pos h]
    · unfold Respond
      rw [if_pos h]
      simp
  · refine ⟨fun hlt => absurd hlt h, fun _ => ?_, ?_⟩
    · unfold Respond
      rw [if_neg h]
    · unfold Respond
      rw [if_neg h]
      simp

/-- C9 witness: a two-byte text goes inline as a snippet. -/
theorem C9_witness :
    Respond ("hi".data) ("c1".data) =
      RespondAction.inline (formatAsSnippet ("hi".data)) ("c1".data) :=
  (C9_respond_paths ("hi".data) ("c1".data)).1 (by decide)

/-- C10: the event text is lower-cased before the addressed-to-bot filter
while the configured name is compared verbatim, so a configured name
containing an upper-case letter never matches as a plain-name prefix; such
a bot is only addressed via the mention prefix or a direct-message
channel. -/
theorem C10_uppercase_name_never_plain (b : Bot) (event : MessageEvent) (c : Char)
    (hc : c ∈ b.name) (hu : c.isUpper = true) :
    b.name.isPrefixOf (goTrim (goToLower event.text) " \n\r".data) = false
    ∧ (b.isBotMessage event (goTrim (goToLower event.text) " \n\r".data) = true →
      b.msgPrefix.isPrefixOf (goTrim (goToLower event.text) " \n\r".data) = true
      ∨ ("D".data).isPrefixOf event.channel = true) := by
  have hmain : b.name.isPrefixOf (goTrim (goToLower event.text) " \n\r".data) = false := by
    by_contra hcon
    rw [Bool.not_eq_false] at hcon
    have hmem := mem_of_isPrefixOf hcon hc
    have hlow := not_isUpper_of_mem_goToLower (mem_of_mem_goTrim hmem)
    rw [hu] at hlow
    exact absurd hlow (by decide)
  refine ⟨hmain, fun hbm => ?_⟩
  unfold Bot.isBotMessage at hbm
  simp only [List.any_cons, List.any_nil, Bool.or_false, Bool.or_eq_true] at hbm
  rcases hbm with (hpre | hname) | hd
  · exact Or.inl hpre
  · rw [hmain] at hname
    exact absurd hname Bool.false_ne_true
  · exact Or.inr hd

/-- C10 witness: the bot named Keel is not plain-name addressed by the
lower-cased text keel hi. -/
theorem C10_witness :
    ("Keel".data).isPrefixOf
      (goTrim (goToLower ("Keel hi".data)) " \n\r".data) = false := by
  have h := (C10_uppercase_name_never_plain wBotUpper
      ⟨"Keel hi".data, "u999".data, "c1".data, [], []⟩ 'K' (by decide) (by decide)).1
  exact h

end KeelSlack
